import Mathlib

/-
Verification of the recorder upload service.

The service (src/server.js, with an older variant in src/unnamed/part_000)
accepts a POST /upload with a deal id and an audio file, transcribes the
audio, converts it to MP3, archives both the MP3 and the transcript text to
Drive, posts a CRM note, and cleans up its temp files.

This file embeds the relevant source functions as pure Lean definitions:
JavaScript string helpers (String.prototype.includes, split(';')[0], trim),
the mimeToExt table, the synthetic-filename derivation of the two
transcribeAudio variants, and the /upload handler as a function from an
abstract set of clients, a request and an initial scratch filesystem to a
response, a final filesystem and an ordered event trace.
-/

/- ── JS string model ─────────────────────────────────────────────────── -/

/-- needle-is-a-prefix-of-haystack test on character lists. -/
def listPrefixOf : List Char → List Char → Bool
  | [], _ => true
  | _ :: _, [] => false
  | a :: as, b :: bs => a == b && listPrefixOf as bs

/-- substring occurrence test on character lists: JS String.prototype.includes. -/
def listContains : List Char → List Char → Bool
  | [], n => n.isEmpty
  | h :: t, n => listPrefixOf n (h :: t) || listContains t n

/-- JS s.includes(sub). -/
def jsIncludes (s sub : String) : Bool := listContains s.data sub.data

/-- the common ASCII whitespace stripped by JS String.prototype.trim. -/
def isJsSpace (c : Char) : Bool :=
  c == ' ' || c == '\t' || c == '\n' || c == '\r' || c == '\x0b' || c == '\x0c'

/-- JS l.trim() on a character list: drop whitespace at both ends. -/
def jsTrimList (l : List Char) : List Char :=
  ((l.dropWhile isJsSpace).reverse.dropWhile isJsSpace).reverse

/-- JS mime.split(';')[0]: the characters before the first semicolon. -/
def splitSemiHead (l : List Char) : List Char := l.takeWhile (fun c => !(c == ';'))

/-- server.js line 141: `mimetype.split(';')[0].trim()`. -/
def baseMime (m : String) : String := ⟨jsTrimList (splitSemiHead m.data)⟩

/-- server.js lines 130-136 (identical in part_000 lines 96-102): mimeToExt. -/
def mimeToExt (mime : String) : String :=
  if jsIncludes mime "mp4" || jsIncludes mime "m4a" then "mp4"
  else if jsIncludes mime "ogg" then "ogg"
  else if jsIncludes mime "wav" then "wav"
  else if jsIncludes mime "mpeg" || jsIncludes mime "mp3" then "mp3"
  else "webm"

/-- the extension server.js's transcribeAudio derives: strip parameters, then map. -/
def resolveExt_server (m : String) : String := mimeToExt (baseMime m)

/-- the extension part_000's transcribeAudio derives: map the unstripped string. -/
def resolveExt_part000 (m : String) : String := mimeToExt m

/-- server.js line 143: the synthetic upload filename. -/
def whisperFilename_server (m : String) : String := "audio." ++ resolveExt_server m

/-- part_000 line 107: the synthetic upload filename. -/
def whisperFilename_part000 (m : String) : String := "audio." ++ resolveExt_part000 m

example : mimeToExt "audio/ogg" = "ogg" := by decide
example : resolveExt_server "audio/webm;codecs=opus" = "webm" := by decide
example : resolveExt_part000 "audio/webm;codecs=mp4" = "mp4" := by decide
example : baseMime " audio/mp4 ;codecs=opus" = "audio/mp4" := by decide

/- ── string lemmas ───────────────────────────────────────────────────── -/

/-- takeWhile up to a semicolon ignores everything at and after the first
semicolon that is appended behind the scanned list. -/
lemma takeWhile_semi_append (l r : List Char) :
    (l ++ ';' :: r).takeWhile (fun c => !(c == ';')) =
      l.takeWhile (fun c => !(c == ';')) := by
  induction l with
  | nil => simp [List.takeWhile_cons]
  | cons a t ih =>
    by_cases h : a = ';'
    · subst h; simp [List.takeWhile_cons]
    · have hb : (a == ';') = false := by simpa using h
      simp [List.takeWhile_cons, hb, ih]

/-- a list all of whose elements satisfy the predicate is its own takeWhile. -/
lemma takeWhile_all {p : Char → Bool} {l : List Char} (h : ∀ c ∈ l, p c = true) :
    l.takeWhile p = l := by
  induction l with
  | nil => rfl
  | cons a t ih =>
    have ha : p a = true := h a (List.mem_cons_self a t)
    simp [List.takeWhile_cons, ha, ih fun c hc => h c (List.mem_cons_of_mem a hc)]

/-- the needle is a prefix of itself followed by anything. -/
lemma listPrefixOf_append_self (n r : List Char) : listPrefixOf n (n ++ r) = true := by
  induction n with
  | nil => rfl
  | cons a t ih => simp [listPrefixOf, ih]

/-- the empty needle occurs in every haystack. -/
lemma listContains_nil (l : List Char) : listContains l [] = true := by
  cases l with
  | nil => rfl
  | cons h t => simp [listContains, listPrefixOf]

/-- a needle occurs in any haystack that has it as an inner factor. -/
lemma listContains_factor (l₁ l₂ r : List Char) :
    listContains (l₁ ++ (l₂ ++ r)) l₂ = true := by
  induction l₁ with
  | nil =>
    cases l₂ with
    | nil => simp [listContains_nil]
    | cons c t =>
      simp only [List.nil_append, List.cons_append, listContains]
      simp [listPrefixOf, listPrefixOf_append_self]
  | cons a t ih => simp [listContains, ih]

/-- occurrence testing rewritten through an explicit factorization. -/
lemma listContains_of_eq {big l₁ l₂ r : List Char} (h : big = l₁ ++ (l₂ ++ r)) :
    listContains big l₂ = true := h ▸ listContains_factor l₁ l₂ r

/-- a prefix test for a whitespace-free needle ignores trailing whitespace of
the haystack. -/
lemma listPrefixOf_append_space (n l s : List Char)
    (hs : ∀ c ∈ s, isJsSpace c = true) (hn : ∀ c ∈ n, isJsSpace c = false) :
    listPrefixOf n (l ++ s) = listPrefixOf n l := by
  induction n generalizing l with
  | nil => rfl
  | cons c n' ih =>
    cases l with
    | nil =>
      cases s with
      | nil => rfl
      | cons d s' =>
        have hc : isJsSpace c = false := hn c (List.mem_cons_self c n')
        have hd : isJsSpace d = true := hs d (List.mem_cons_self d s')
        have hcd : (c == d) = false := by
          refine beq_eq_false_iff_ne.mpr fun hEq => ?_
          rw [hEq, hd] at hc; exact Bool.noConfusion hc
        simp [listPrefixOf, hcd]
    | cons a l' =>
      show (c == a && listPrefixOf n' (l' ++ s)) = (c == a && listPrefixOf n' l')
      rw [ih l' (fun c hc => hn c (List.mem_cons_of_mem _ hc))]

/-- a nonempty whitespace-free needle never occurs in pure whitespace. -/
lemma listContains_all_space (s n : List Char)
    (hs : ∀ c ∈ s, isJsSpace c = true)
    (hne : n ≠ []) (hn : ∀ c ∈ n, isJsSpace c = false) :
    listContains s n = false := by
  induction s with
  | nil => cases n with
    | nil => exact absurd rfl hne
    | cons c t => rfl
  | cons d s' ih =>
    cases n with
    | nil => exact absurd rfl hne
    | cons c n' =>
      have hc : isJsSpace c = false := hn c (List.mem_cons_self c n')
      have hd : isJsSpace d = true := hs d (List.mem_cons_self d s')
      have hcd : (c == d) = false := by
        refine beq_eq_false_iff_ne.mpr fun hEq => ?_
        rw [hEq, hd] at hc; exact Bool.noConfusion hc
      simp [listContains, listPrefixOf, hcd,
        ih (fun e he => hs e (List.mem_cons_of_mem d he))]

/-- occurrence of a whitespace-free needle ignores trailing whitespace. -/
lemma listContains_append_space (l s n : List Char)
    (hs : ∀ c ∈ s, isJsSpace c = true)
    (hne : n ≠ []) (hn : ∀ c ∈ n, isJsSpace c = false) :
    listContains (l ++ s) n = listContains l n := by
  induction l with
  | nil =>
    rw [List.nil_append, listContains_all_space s n hs hne hn]
    cases n with
    | nil => exact absurd rfl hne
    | cons c t => rfl
  | cons a t ih =>
    have h1 : listPrefixOf n ((a :: t) ++ s) = listPrefixOf n (a :: t) :=
      listPrefixOf_append_space n (a :: t) s hs hn
    calc listContains ((a :: t) ++ s) n
        = (listPrefixOf n ((a :: t) ++ s) || listContains (t ++ s) n) := rfl
      _ = (listPrefixOf n (a :: t) || listContains t n) := by rw [h1, ih]
      _ = listContains (a :: t) n := rfl

/-- occurrence of a whitespace-free needle ignores leading whitespace. -/
lemma listContains_dropWhile_space (l n : List Char)
    (hne : n ≠ []) (hn : ∀ c ∈ n, isJsSpace c = false) :
    listContains (l.dropWhile isJsSpace) n = listContains l n := by
  induction l with
  | nil => rfl
  | cons a t ih =>
    by_cases h : isJsSpace a = true
    · cases n with
      | nil => exact absurd rfl hne
      | cons c n' =>
        have hc : isJsSpace c = false := hn c (List.mem_cons_self c n')
        have hca : (c == a) = false := by
          refine beq_eq_false_iff_ne.mpr fun hEq => ?_
          rw [hEq, h] at hc; exact Bool.noConfusion hc
        simp [List.dropWhile_cons, h, listContains, listPrefixOf, hca, ih]
    · simp [List.dropWhile_cons, h]

/-- trimming whitespace at both ends does not change whether a nonempty
whitespace-free needle occurs. -/
lemma listContains_trim (l n : List Char)
    (hne : n ≠ []) (hn : ∀ c ∈ n, isJsSpace c = false) :
    listContains (jsTrimList l) n = listContains l n := by
  unfold jsTrimList
  set l1 := l.dropWhile isJsSpace with hl1
  have hsplit : l1.reverse = l1.reverse.takeWhile isJsSpace ++ l1.reverse.dropWhile isJsSpace :=
    (List.takeWhile_append_dropWhile isJsSpace l1.reverse).symm
  have hdecomp :
      l1 = (l1.reverse.dropWhile isJsSpace).reverse ++
        (l1.reverse.takeWhile isJsSpace).reverse := by
    conv_lhs => rw [← List.reverse_reverse l1, hsplit, List.reverse_append]
  have hsfx : ∀ c ∈ (l1.reverse.takeWhile isJsSpace).reverse, isJsSpace c = true := by
    intro c hc
    exact List.mem_takeWhile_imp (List.mem_reverse.mp hc)
  calc listContains (l1.reverse.dropWhile isJsSpace).reverse n
      = listContains ((l1.reverse.dropWhile isJsSpace).reverse ++
          (l1.reverse.takeWhile isJsSpace).reverse) n := by
        rw [listContains_append_space _ _ n hsfx hne hn]
    _ = listContains l1 n := by rw [← hdecomp]
    _ = listContains l n := listContains_dropWhile_space l n hne hn

/- ── pipeline model ──────────────────────────────────────────────────── -/

/-- the multer-populated req.file: saved path and reported MIME type. -/
structure UploadedFile where
  path : String
  mimetype : Option String
deriving DecidableEq

/-- the multipart POST /upload request: optional dealId field, optional file. -/
structure UploadRequest where
  dealId : Option String
  file : Option UploadedFile
deriving DecidableEq

/-- observable actions the handler performs, in program order. -/
inductive Event where
  | transcribeCall : String → String → Event
  | convertCall : String → String → Event
  | uploadCall : String → String → String → Option String → Event
  | noteCall : String → String → Event
  | writeFile : String → Event
  | unlink : String → Event
deriving DecidableEq

/-- the JSON responses the handler can send. -/
inductive HttpResponse where
  | ok : String → String → String → HttpResponse
  | badRequest : String → HttpResponse
  | serverError : String → HttpResponse
deriving DecidableEq

/-- outcome of one request: response, final scratch filesystem, event trace. -/
structure RunResult where
  response : HttpResponse
  fs : List String
  events : List Event
deriving DecidableEq

/-- the external operations the handler awaits, as fallible functions:
transcribeAudio, convertToMp3, uploadToDrive(path, name, mime, folder),
sendAmoCrmNote. -/
structure Clients where
  transcribeAudio : String → String → Except String String
  convertToMp3 : String → String → Except String Unit
  uploadToDrive : String → String → String → Option String → Except String String
  sendAmoCrmNote : String → String → Except String Unit

/-- the Drive folder ids from the environment. -/
structure Config where
  audioFolder : Option String
  textFolder : Option String

/-- fs.writeFileSync / ffmpeg save: the path exists afterwards. -/
def fsWrite (p : String) (fs : List String) : List String :=
  if p ∈ fs then fs else p :: fs

/-- server.js line 93: the Drive name of the archived audio. -/
def audioName (d now : String) : String := "deal_" ++ d ++ "_audio_" ++ now ++ ".mp3"

/-- server.js line 98: the Drive name (and scratch basename) of the transcript. -/
def textName (d now : String) : String := "deal_" ++ d ++ "_transcription_" ++ now ++ ".txt"

/-- server.js line 99: the scratch path of the transcript file. -/
def textPathOf (d now : String) : String := "/tmp/uploads/" ++ textName d now

/-- server.js lines 105-106: the Drive view URL derived from a file id. -/
def driveUrl (id : String) : String := "https://drive.google.com/file/d/" ++ id ++ "/view"

/-- server.js line 107: the CRM note body template. -/
def noteTextOf (transcription audioFileId textFileId : String) : String :=
  "📝 Транскрипция встречи:\n\n" ++ transcription ++
    "\n\n🎵 Аудио: " ++ driveUrl audioFileId ++ "\n📄 Текст: " ++ driveUrl textFileId

/-- Node fs.unlinkSync error message for a missing path (abridged). -/
def enoentMsg (p : String) : String := "ENOENT: no such file or directory, unlink " ++ p

/-- server.js lines 118-123: the catch block — best-effort deletion of the
uploaded audio and the mp3 copy, then a 500 with the thrown message. -/
def catchClean (audioPath mp3Path e : String) (fs : List String) (evs : List Event) :
    RunResult :=
  let s1 := if audioPath ∈ fs then (fs.erase audioPath, evs ++ [Event.unlink audioPath])
            else (fs, evs)
  let s2 := if mp3Path ∈ s1.1 then (s1.1.erase mp3Path, s1.2 ++ [Event.unlink mp3Path])
            else s1
  ⟨HttpResponse.serverError e, s2.1, s2.2⟩

/-- server.js lines 79-123: the try/catch pipeline body, reached once dealId
and the uploaded file are both present. Client calls are awaited one at a
time in program order; any .error takes the catch path. -/
def runPipeline (c : Clients) (cfg : Config) (d audioPath mimetype now1 now2 : String)
    (fs0 : List String) : RunResult :=
  let mp3Path := audioPath ++ ".mp3"
  let evs1 := [Event.transcribeCall audioPath mimetype]
  match c.transcribeAudio audioPath mimetype with
  | .error e => catchClean audioPath mp3Path e fs0 evs1
  | .ok transcription =>
    let evs2 := evs1 ++ [Event.convertCall audioPath mp3Path]
    match c.convertToMp3 audioPath mp3Path with
    | .error e => catchClean audioPath mp3Path e fs0 evs2
    | .ok _ =>
      let fs1 := fsWrite mp3Path fs0
      let evs3 := evs2 ++ [Event.uploadCall mp3Path (audioName d now1) "audio/mpeg" cfg.audioFolder]
      match c.uploadToDrive mp3Path (audioName d now1) "audio/mpeg" cfg.audioFolder with
      | .error e => catchClean audioPath mp3Path e fs1 evs3
      | .ok audioFileId =>
        let textPath := textPathOf d now2
        let fs2 := fsWrite textPath fs1
        let evs4 := evs3 ++ [Event.writeFile textPath,
          Event.uploadCall textPath (textName d now2) "text/plain" cfg.textFolder]
        match c.uploadToDrive textPath (textName d now2) "text/plain" cfg.textFolder with
        | .error e => catchClean audioPath mp3Path e fs2 evs4
        | .ok textFileId =>
          let noteText := noteTextOf transcription audioFileId textFileId
          let evs5 := evs4 ++ [Event.noteCall d noteText]
          match c.sendAmoCrmNote d noteText with
          | .error e => catchClean audioPath mp3Path e fs2 evs5
          | .ok _ =>
            if audioPath ∈ fs2 then
              let fs3 := fs2.erase audioPath
              let evs6 := evs5 ++ [Event.unlink audioPath]
              let s4 := if mp3Path ∈ fs3 then (fs3.erase mp3Path, evs6 ++ [Event.unlink mp3Path])
                        else (fs3, evs6)
              if textPath ∈ s4.1 then
                ⟨HttpResponse.ok d textFileId audioFileId, s4.1.erase textPath,
                  s4.2 ++ [Event.unlink textPath]⟩
              else catchClean audioPath mp3Path (enoentMsg textPath) s4.1 s4.2
            else catchClean audioPath mp3Path (enoentMsg audioPath) fs2 evs5

/-- server.js lines 70-124: the whole /upload handler, including the input
check `if (!dealId || !audioPath) return 400` and the JS falsy treatment of
an absent or empty dealId and of an absent or empty file MIME type. -/
def handleUpload (c : Clients) (cfg : Config) (req : UploadRequest)
    (now1 now2 : String) (fs0 : List String) : RunResult :=
  match req.dealId, req.file with
  | some d, some f =>
    if d = "" then ⟨HttpResponse.badRequest "dealId and audio are required", fs0, []⟩
    else
      let mimetype := match f.mimetype with
        | none => "audio/webm"
        | some m => if m = "" then "audio/webm" else m
      runPipeline c cfg d f.path mimetype now1 now2 fs0
  | _, _ => ⟨HttpResponse.badRequest "dealId and audio are required", fs0, []⟩

/-- the transcription API call, abstracted: arguments are the streamed file
path, the synthetic multipart filename and the multipart content type; the
result is the parsed body (a .text field) or a transport error carrying the
optional JSON-serialized response body and the generic error message. -/
structure ApiErr where
  responseData : Option String
  message : String
deriving DecidableEq

/-- parsed success body of the transcription endpoint. -/
structure WhisperOk where
  text : String
deriving DecidableEq

/-- server.js lines 139-168: transcribeAudio — strips the MIME parameters,
derives the synthetic filename, posts, and on failure wraps the verbatim
JSON-serialized response body (or, without a response, the transport
message) in a new error. -/
def transcribeAudio_server (api : String → String → String → Except ApiErr WhisperOk)
    (filePath mimetype : String) : Except String String :=
  let bm := baseMime mimetype
  let filename := "audio." ++ mimeToExt bm
  match api filePath filename bm with
  | .ok d => .ok d.text
  | .error e =>
    let detail := match e.responseData with
      | some dta => dta
      | none => e.message
    .error ("Whisper error: " ++ detail)

/-- part_000 lines 105-126: transcribeAudio — no parameter stripping and no
try/catch: a failed post propagates with its own generic message, which is
what the handler's catch reads as err.message. -/
def transcribeAudio_part000 (api : String → String → String → Except ApiErr WhisperOk)
    (filePath mimetype : String) : Except String String :=
  let filename := "audio." ++ mimeToExt mimetype
  match api filePath filename mimetype with
  | .ok d => .ok d.text
  | .error e => .error e.message

/-- trace predicate: is this event a CRM note post? -/
def isNoteCall : Event → Bool
  | .noteCall _ _ => true
  | _ => false

/- ── concrete mock fixtures ──────────────────────────────────────────── -/

/-- mocked clients that always succeed with canned values. -/
def mockOk : Clients where
  transcribeAudio := fun _ _ => .ok "hello world"
  convertToMp3 := fun _ _ => .ok ()
  uploadToDrive := fun _ _ mime _ => if mime = "text/plain" then .ok "TID" else .ok "AID"
  sendAmoCrmNote := fun _ _ => .ok ()

/-- mocked clients whose notifier rejects. -/
def mockNoteFail : Clients :=
  { mockOk with sendAmoCrmNote := fun _ _ => .error "boom" }

/-- mocked clients whose transcription rejects. -/
def mockTranscribeFail : Clients :=
  { mockOk with transcribeAudio := fun _ _ => .error "whisper down" }

/-- folder configuration used by the concrete runs. -/
def mockCfg : Config := ⟨some "AF", some "TF"⟩

/-- a well-formed request: dealId 42 and a multer-saved webm file. -/
def reqOk : UploadRequest := ⟨some "42", some ⟨"/tmp/uploads/abc", some "audio/webm"⟩⟩

/-- the scratch filesystem as multer leaves it before the handler runs. -/
def fsStart : List String := ["/tmp/uploads/abc"]

example :
    handleUpload mockOk mockCfg reqOk "111" "222" fsStart =
      ⟨HttpResponse.ok "42" "TID" "AID", [],
        [Event.transcribeCall "/tmp/uploads/abc" "audio/webm",
         Event.convertCall "/tmp/uploads/abc" "/tmp/uploads/abc.mp3",
         Event.uploadCall "/tmp/uploads/abc.mp3" (audioName "42" "111") "audio/mpeg" (some "AF"),
         Event.writeFile (textPathOf "42" "222"),
         Event.uploadCall (textPathOf "42" "222") (textName "42" "222") "text/plain" (some "TF"),
         Event.noteCall "42" (noteTextOf "hello world" "AID" "TID"),
         Event.unlink "/tmp/uploads/abc",
         Event.unlink "/tmp/uploads/abc.mp3",
         Event.unlink (textPathOf "42" "222")]⟩ := by decide

example :
    (handleUpload mockNoteFail mockCfg reqOk "111" "222" fsStart).response =
      HttpResponse.serverError "boom" := by decide

example : textPathOf "42" "222" ∈ (handleUpload mockNoteFail mockCfg reqOk "111" "222" fsStart).fs := by
  decide

/- ── filesystem lemmas ───────────────────────────────────────────────── -/

lemma mem_fsWrite_self (p : String) (fs : List String) : p ∈ fsWrite p fs := by
  unfold fsWrite; split
  · assumption
  · exact List.mem_cons_self p fs

lemma mem_fsWrite_of_mem {q : String} {fs : List String} (p : String) (h : q ∈ fs) :
    q ∈ fsWrite p fs := by
  unfold fsWrite; split
  · exact h
  · exact List.mem_cons_of_mem p h

lemma fsWrite_nodup {fs : List String} (p : String) (h : fs.Nodup) :
    (fsWrite p fs).Nodup := by
  unfold fsWrite; split
  · exact h
  · exact List.nodup_cons.mpr ⟨by assumption, h⟩

/-- appending the ".mp3" suffix always changes the path. -/
lemma mp3_suffix_ne (s : String) : s ++ ".mp3" ≠ s := by
  intro h
  have hl := congrArg String.length h
  rw [String.length_append] at hl
  have h4 : (".mp3" : String).length = 4 := rfl
  rw [h4] at hl
  omega

/-- the response and final filesystem of the catch block: it always sends a
500 with the thrown message, and both best-effort deletions reduce to plain
erasure. -/
lemma catchClean_eq (audioPath mp3Path e : String) (fs : List String) (evs : List Event) :
    (catchClean audioPath mp3Path e fs evs).response = HttpResponse.serverError e ∧
    (catchClean audioPath mp3Path e fs evs).fs = (fs.erase audioPath).erase mp3Path := by
  unfold catchClean
  by_cases h1 : audioPath ∈ fs
  · by_cases h2 : mp3Path ∈ fs.erase audioPath <;> simp [h1, h2, List.erase_of_not_mem]
  · rw [List.erase_of_not_mem h1]
    by_cases h2 : mp3Path ∈ fs <;> simp [h1, h2, List.erase_of_not_mem]

/-- the catch block when the uploaded audio is present and the mp3 copy is
not: a 500 and exactly one unlink. -/
lemma catchClean_eq_one {audioPath mp3Path : String} {fs : List String}
    (e : String) (evs : List Event)
    (h1 : audioPath ∈ fs) (h2 : mp3Path ∉ fs.erase audioPath) :
    catchClean audioPath mp3Path e fs evs =
      ⟨HttpResponse.serverError e, fs.erase audioPath, evs ++ [Event.unlink audioPath]⟩ := by
  unfold catchClean
  simp [h1, h2]

/-- the catch block when both temp files are present: a 500 and two unlinks. -/
lemma catchClean_eq_two {audioPath mp3Path : String} {fs : List String}
    (e : String) (evs : List Event)
    (h1 : audioPath ∈ fs) (h2 : mp3Path ∈ fs.erase audioPath) :
    catchClean audioPath mp3Path e fs evs =
      ⟨HttpResponse.serverError e, (fs.erase audioPath).erase mp3Path,
        evs ++ [Event.unlink audioPath, Event.unlink mp3Path]⟩ := by
  unfold catchClean
  simp [h1, h2]

/-- after erasing a path from a duplicate-free list and erasing once more,
neither erased path is left. -/
lemma not_mem_erase_pair {fs : List String} (h : fs.Nodup) (a b : String) :
    a ∉ (fs.erase a).erase b ∧ b ∉ (fs.erase a).erase b := by
  constructor
  · intro hmem
    have ha : a ∈ fs.erase a := List.mem_of_mem_erase hmem
    rw [h.mem_erase_iff] at ha
    exact ha.1 rfl
  · intro hmem
    rw [(h.erase a).mem_erase_iff] at hmem
    exact hmem.1 rfl

/- ── pipeline run lemmas ─────────────────────────────────────────────── -/

/-- the success path of the pipeline: all five awaited calls succeed, the
response carries the deal id and both Drive ids, and the trace is the five
calls in program order followed by the three cleanup unlinks. -/
lemma runPipeline_success
    (c : Clients) (cfg : Config) (d ap mt now1 now2 t aid tid : String) (fs0 : List String)
    (h1 : c.transcribeAudio ap mt = .ok t)
    (h2 : c.convertToMp3 ap (ap ++ ".mp3") = .ok ())
    (h3 : c.uploadToDrive (ap ++ ".mp3") (audioName d now1) "audio/mpeg" cfg.audioFolder = .ok aid)
    (h4 : c.uploadToDrive (textPathOf d now2) (textName d now2) "text/plain" cfg.textFolder = .ok tid)
    (h5 : c.sendAmoCrmNote d (noteTextOf t aid tid) = .ok ())
    (hap : ap ∈ fs0)
    (hta : textPathOf d now2 ≠ ap)
    (htm : textPathOf d now2 ≠ ap ++ ".mp3") :
    runPipeline c cfg d ap mt now1 now2 fs0 =
      ⟨HttpResponse.ok d tid aid,
        (((fsWrite (textPathOf d now2) (fsWrite (ap ++ ".mp3") fs0)).erase ap).erase
          (ap ++ ".mp3")).erase (textPathOf d now2),
        [Event.transcribeCall ap mt,
         Event.convertCall ap (ap ++ ".mp3"),
         Event.uploadCall (ap ++ ".mp3") (audioName d now1) "audio/mpeg" cfg.audioFolder,
         Event.writeFile (textPathOf d now2),
         Event.uploadCall (textPathOf d now2) (textName d now2) "text/plain" cfg.textFolder,
         Event.noteCall d (noteTextOf t aid tid),
         Event.unlink ap, Event.unlink (ap ++ ".mp3"),
         Event.unlink (textPathOf d now2)]⟩ := by
  have hap2 : ap ∈ fsWrite (textPathOf d now2) (fsWrite (ap ++ ".mp3") fs0) :=
    mem_fsWrite_of_mem _ (mem_fsWrite_of_mem _ hap)
  have hm3 : (ap ++ ".mp3") ∈
      (fsWrite (textPathOf d now2) (fsWrite (ap ++ ".mp3") fs0)).erase ap :=
    (List.mem_erase_of_ne (mp3_suffix_ne ap)).mpr
      (mem_fsWrite_of_mem _ (mem_fsWrite_self _ _))
  have htp : textPathOf d now2 ∈
      ((fsWrite (textPathOf d now2) (fsWrite (ap ++ ".mp3") fs0)).erase ap).erase
        (ap ++ ".mp3") :=
    (List.mem_erase_of_ne htm).mpr ((List.mem_erase_of_ne hta).mpr (mem_fsWrite_self _ _))
  simp only [runPipeline, h1, h2, h3, h4, h5, hap2, hm3, htp, if_true]
  rfl

/-- transcription fails: one call, one unlink, 500 with the thrown message. -/
lemma runPipeline_fail1
    (c : Clients) (cfg : Config) (d ap mt now1 now2 e : String) (fs0 : List String)
    (h : c.transcribeAudio ap mt = .error e)
    (hap : ap ∈ fs0) (hm : ap ++ ".mp3" ∉ fs0) :
    runPipeline c cfg d ap mt now1 now2 fs0 =
      ⟨HttpResponse.serverError e, fs0.erase ap,
        [Event.transcribeCall ap mt, Event.unlink ap]⟩ := by
  have hm' : ap ++ ".mp3" ∉ fs0.erase ap := fun hx => hm (List.mem_of_mem_erase hx)
  simp only [runPipeline, h]
  rw [catchClean_eq_one e _ hap hm']
  rfl

/-- transcoding fails: two calls, one unlink, 500 with the thrown message. -/
lemma runPipeline_fail2
    (c : Clients) (cfg : Config) (d ap mt now1 now2 t e : String) (fs0 : List String)
    (h1 : c.transcribeAudio ap mt = .ok t)
    (h : c.convertToMp3 ap (ap ++ ".mp3") = .error e)
    (hap : ap ∈ fs0) (hm : ap ++ ".mp3" ∉ fs0) :
    runPipeline c cfg d ap mt now1 now2 fs0 =
      ⟨HttpResponse.serverError e, fs0.erase ap,
        [Event.transcribeCall ap mt, Event.convertCall ap (ap ++ ".mp3"),
         Event.unlink ap]⟩ := by
  have hm' : ap ++ ".mp3" ∉ fs0.erase ap := fun hx => hm (List.mem_of_mem_erase hx)
  simp only [runPipeline, h1, h]
  rw [catchClean_eq_one e _ hap hm']
  rfl

/-- the audio archive upload fails: three calls, both temp files unlinked,
500 with the thrown message. -/
lemma runPipeline_fail3
    (c : Clients) (cfg : Config) (d ap mt now1 now2 t e : String) (fs0 : List String)
    (h1 : c.transcribeAudio ap mt = .ok t)
    (h2 : c.convertToMp3 ap (ap ++ ".mp3") = .ok ())
    (h : c.uploadToDrive (ap ++ ".mp3") (audioName d now1) "audio/mpeg" cfg.audioFolder =
      .error e)
    (hap : ap ∈ fs0) :
    runPipeline c cfg d ap mt now1 now2 fs0 =
      ⟨HttpResponse.serverError e,
        ((fsWrite (ap ++ ".mp3") fs0).erase ap).erase (ap ++ ".mp3"),
        [Event.transcribeCall ap mt, Event.convertCall ap (ap ++ ".mp3"),
         Event.uploadCall (ap ++ ".mp3") (audioName d now1) "audio/mpeg" cfg.audioFolder,
         Event.unlink ap, Event.unlink (ap ++ ".mp3")]⟩ := by
  have ha : ap ∈ fsWrite (ap ++ ".mp3") fs0 := mem_fsWrite_of_mem _ hap
  have hb : (ap ++ ".mp3") ∈ (fsWrite (ap ++ ".mp3") fs0).erase ap :=
    (List.mem_erase_of_ne (mp3_suffix_ne ap)).mpr (mem_fsWrite_self _ _)
  simp only [runPipeline, h1, h2, h]
  rw [catchClean_eq_two e _ ha hb]
  rfl

/-- the transcript archive upload fails: the transcript file has been written
and is not among the catch block's deletions. -/
lemma runPipeline_fail4
    (c : Clients) (cfg : Config) (d ap mt now1 now2 t aid e : String) (fs0 : List String)
    (h1 : c.transcribeAudio ap mt = .ok t)
    (h2 : c.convertToMp3 ap (ap ++ ".mp3") = .ok ())
    (h3 : c.uploadToDrive (ap ++ ".mp3") (audioName d now1) "audio/mpeg" cfg.audioFolder =
      .ok aid)
    (h : c.uploadToDrive (textPathOf d now2) (textName d now2) "text/plain" cfg.textFolder =
      .error e)
    (hap : ap ∈ fs0) :
    runPipeline c cfg d ap mt now1 now2 fs0 =
      ⟨HttpResponse.serverError e,
        ((fsWrite (textPathOf d now2) (fsWrite (ap ++ ".mp3") fs0)).erase ap).erase
          (ap ++ ".mp3"),
        [Event.transcribeCall ap mt, Event.convertCall ap (ap ++ ".mp3"),
         Event.uploadCall (ap ++ ".mp3") (audioName d now1) "audio/mpeg" cfg.audioFolder,
         Event.writeFile (textPathOf d now2),
         Event.uploadCall (textPathOf d now2) (textName d now2) "text/plain" cfg.textFolder,
         Event.unlink ap, Event.unlink (ap ++ ".mp3")]⟩ := by
  have ha : ap ∈ fsWrite (textPathOf d now2) (fsWrite (ap ++ ".mp3") fs0) :=
    mem_fsWrite_of_mem _ (mem_fsWrite_of_mem _ hap)
  have hb : (ap ++ ".mp3") ∈
      (fsWrite (textPathOf d now2) (fsWrite (ap ++ ".mp3") fs0)).erase ap :=
    (List.mem_erase_of_ne (mp3_suffix_ne ap)).mpr
      (mem_fsWrite_of_mem _ (mem_fsWrite_self _ _))
  simp only [runPipeline, h1, h2, h3, h]
  rw [catchClean_eq_two e _ ha hb]
  rfl

/-- the CRM note post fails: all five calls happened once, both temp files
are unlinked, the transcript file is not, 500 with the thrown message. -/
lemma runPipeline_fail5
    (c : Clients) (cfg : Config) (d ap mt now1 now2 t aid tid e : String) (fs0 : List String)
    (h1 : c.transcribeAudio ap mt = .ok t)
    (h2 : c.convertToMp3 ap (ap ++ ".mp3") = .ok ())
    (h3 : c.uploadToDrive (ap ++ ".mp3") (audioName d now1) "audio/mpeg" cfg.audioFolder =
      .ok aid)
    (h4 : c.uploadToDrive (textPathOf d now2) (textName d now2) "text/plain" cfg.textFolder =
      .ok tid)
    (h : c.sendAmoCrmNote d (noteTextOf t aid tid) = .error e)
    (hap : ap ∈ fs0) :
    runPipeline c cfg d ap mt now1 now2 fs0 =
      ⟨HttpResponse.serverError e,
        ((fsWrite (textPathOf d now2) (fsWrite (ap ++ ".mp3") fs0)).erase ap).erase
          (ap ++ ".mp3"),
        [Event.transcribeCall ap mt, Event.convertCall ap (ap ++ ".mp3"),
         Event.uploadCall (ap ++ ".mp3") (audioName d now1) "audio/mpeg" cfg.audioFolder,
         Event.writeFile (textPathOf d now2),
         Event.uploadCall (textPathOf d now2) (textName d now2) "text/plain" cfg.textFolder,
         Event.noteCall d (noteTextOf t aid tid),
         Event.unlink ap, Event.unlink (ap ++ ".mp3")]⟩ := by
  have ha : ap ∈ fsWrite (textPathOf d now2) (fsWrite (ap ++ ".mp3") fs0) :=
    mem_fsWrite_of_mem _ (mem_fsWrite_of_mem _ hap)
  have hb : (ap ++ ".mp3") ∈
      (fsWrite (textPathOf d now2) (fsWrite (ap ++ ".mp3") fs0)).erase ap :=
    (List.mem_erase_of_ne (mp3_suffix_ne ap)).mpr
      (mem_fsWrite_of_mem _ (mem_fsWrite_self _ _))
  simp only [runPipeline, h1, h2, h3, h4, h]
  rw [catchClean_eq_two e _ ha hb]
  rfl

/-- a duplicate-free list does not keep an erased element. -/
lemma not_mem_erase_self {l : List String} (h : l.Nodup) (a : String) :
    a ∉ l.erase a := by
  intro hmem
  rw [h.mem_erase_iff] at hmem
  exact hmem.1 rfl

/-- the catch block leaves neither the uploaded audio nor the mp3 copy. -/
lemma catchClean_not_mem {fs : List String} (hnd : fs.Nodup) (ap mp3 e : String)
    (evs : List Event) :
    ap ∉ (catchClean ap mp3 e fs evs).fs ∧ mp3 ∉ (catchClean ap mp3 e fs evs).fs := by
  simp only [(catchClean_eq ap mp3 e fs evs).2]
  exact not_mem_erase_pair hnd ap mp3

/-- whatever the clients do, the pipeline never leaves the uploaded audio
file or the mp3 copy in scratch storage when it answers. -/
lemma runPipeline_cleanup (c : Clients) (cfg : Config)
    (d ap mt now1 now2 : String) (fs0 : List String) (hnd : fs0.Nodup) :
    ap ∉ (runPipeline c cfg d ap mt now1 now2 fs0).fs ∧
      (ap ++ ".mp3") ∉ (runPipeline c cfg d ap mt now1 now2 fs0).fs := by
  have hnd1 : (fsWrite (ap ++ ".mp3") fs0).Nodup := fsWrite_nodup _ hnd
  have hnd2 : (fsWrite (textPathOf d now2) (fsWrite (ap ++ ".mp3") fs0)).Nodup :=
    fsWrite_nodup _ hnd1
  unfold runPipeline
  rcases hx1 : c.transcribeAudio ap mt with e | t
  · simp only [hx1]; exact catchClean_not_mem hnd ap _ e _
  · simp only [hx1]
    rcases hx2 : c.convertToMp3 ap (ap ++ ".mp3") with e | u
    · simp only [hx2]; exact catchClean_not_mem hnd ap _ e _
    · simp only [hx2]
      rcases hx3 : c.uploadToDrive (ap ++ ".mp3") (audioName d now1) "audio/mpeg"
          cfg.audioFolder with e | aid
      · simp only [hx3]; exact catchClean_not_mem hnd1 ap _ e _
      · simp only [hx3]
        rcases hx4 : c.uploadToDrive (textPathOf d now2) (textName d now2) "text/plain"
            cfg.textFolder with e | tid
        · simp only [hx4]; exact catchClean_not_mem hnd2 ap _ e _
        · simp only [hx4]
          rcases hx5 : c.sendAmoCrmNote d (noteTextOf t aid tid) with e | u2
          · simp only [hx5]; exact catchClean_not_mem hnd2 ap _ e _
          · simp only [hx5]
            by_cases hA : ap ∈ fsWrite (textPathOf d now2) (fsWrite (ap ++ ".mp3") fs0)
            · simp only [hA, if_true]
              by_cases hB : (ap ++ ".mp3") ∈
                  (fsWrite (textPathOf d now2) (fsWrite (ap ++ ".mp3") fs0)).erase ap
              · simp only [hB, if_true]
                by_cases hC : textPathOf d now2 ∈
                    ((fsWrite (textPathOf d now2) (fsWrite (ap ++ ".mp3") fs0)).erase
                      ap).erase (ap ++ ".mp3")
                · simp only [hC, if_true]
                  refine ⟨fun hmem => ?_, fun hmem => ?_⟩
                  · exact (not_mem_erase_pair hnd2 ap (ap ++ ".mp3")).1
                      (List.mem_of_mem_erase hmem)
                  · exact (not_mem_erase_pair hnd2 ap (ap ++ ".mp3")).2
                      (List.mem_of_mem_erase hmem)
                · simp only [hC, if_false]
                  exact catchClean_not_mem ((hnd2.erase ap).erase (ap ++ ".mp3")) ap _ _ _
              · simp only [hB, if_false]
                by_cases hC : textPathOf d now2 ∈
                    (fsWrite (textPathOf d now2) (fsWrite (ap ++ ".mp3") fs0)).erase ap
                · simp only [hC, if_true]
                  refine ⟨fun hmem => ?_, fun hmem => ?_⟩
                  · exact not_mem_erase_self hnd2 ap (List.mem_of_mem_erase hmem)
                  · exact hB (List.mem_of_mem_erase hmem)
                · simp only [hC, if_false]
                  exact catchClean_not_mem (hnd2.erase ap) ap _ _ _
            · simp only [hA, if_false]
              exact catchClean_not_mem hnd2 ap _ _ _

/- ── claim theorems: the Format Resolver (C1, C10) ───────────────────── -/

/-- String append acts as list append on the character data. -/
lemma data_append (s t : String) : (s ++ t).data = s.data ++ t.data := rfl

/-- appending a semicolon and parameters leaves the stripped base intact. -/
lemma baseMime_param_insensitive (base params : String) :
    baseMime (base ++ ";" ++ params) = baseMime base := by
  have hdata : (base ++ ";" ++ params).data = base.data ++ ';' :: params.data := by
    rw [data_append, data_append]
    show (base.data ++ [';']) ++ params.data = _
    rw [List.append_assoc]
    rfl
  unfold baseMime splitSemiHead
  rw [hdata, takeWhile_semi_append]

/-- Claim C1, counterexample: in the part_000 variant, transcribeAudio feeds
the unstripped MIME string to mimeToExt, so parameters after the semicolon
do change the returned label — audio/webm;codecs=mp4 resolves to mp4 while
its parameter-free form resolves to webm. -/
theorem c1_params_affect_part000_label :
    resolveExt_part000 "audio/webm;codecs=mp4" ≠ resolveExt_part000 "audio/webm" ∧
    resolveExt_part000 "audio/webm;codecs=mp4" = "mp4" := by
  constructor
  · decide
  · decide

/-- Claim C1 (amended): the server.js Format Resolver (parameter stripping
composed with mimeToExt) returns mp4 for base types containing mp4 or m4a,
ogg for ogg, wav for wav, mp3 for mpeg or mp3, and webm for every other
input, and parameters after the semicolon never affect its label; the
part_000 variant omits the stripping, so a parameter containing a format
keyword changes its label. -/
theorem c1_format_resolver :
    (∀ base params : String,
        resolveExt_server (base ++ ";" ++ params) = resolveExt_server base)
  ∧ (∀ m : String,
        jsIncludes (baseMime m) "mp4" = true ∨ jsIncludes (baseMime m) "m4a" = true →
        resolveExt_server m = "mp4")
  ∧ (∀ m : String, jsIncludes (baseMime m) "mp4" = false →
        jsIncludes (baseMime m) "m4a" = false → jsIncludes (baseMime m) "ogg" = true →
        resolveExt_server m = "ogg")
  ∧ (∀ m : String, jsIncludes (baseMime m) "mp4" = false →
        jsIncludes (baseMime m) "m4a" = false → jsIncludes (baseMime m) "ogg" = false →
        jsIncludes (baseMime m) "wav" = true → resolveExt_server m = "wav")
  ∧ (∀ m : String, jsIncludes (baseMime m) "mp4" = false →
        jsIncludes (baseMime m) "m4a" = false → jsIncludes (baseMime m) "ogg" = false →
        jsIncludes (baseMime m) "wav" = false →
        jsIncludes (baseMime m) "mpeg" = true ∨ jsIncludes (baseMime m) "mp3" = true →
        resolveExt_server m = "mp3")
  ∧ (∀ m : String, jsIncludes (baseMime m) "mp4" = false →
        jsIncludes (baseMime m) "m4a" = false → jsIncludes (baseMime m) "ogg" = false →
        jsIncludes (baseMime m) "wav" = false → jsIncludes (baseMime m) "mpeg" = false →
        jsIncludes (baseMime m) "mp3" = false → resolveExt_server m = "webm")
  ∧ resolveExt_part000 "audio/webm;codecs=opus" = "webm" := by
  refine ⟨?_, ?_, ?_, ?_, ?_, ?_, by decide⟩
  · intro base params
    unfold resolveExt_server
    rw [baseMime_param_insensitive]
  · intro m h
    rcases h with h | h <;> simp [resolveExt_server, mimeToExt, h]
  · intro m h1 h2 h3
    simp [resolveExt_server, mimeToExt, h1, h2, h3]
  · intro m h1 h2 h3 h4
    simp [resolveExt_server, mimeToExt, h1, h2, h3, h4]
  · intro m h1 h2 h3 h4 h
    rcases h with h | h <;> simp [resolveExt_server, mimeToExt, h1, h2, h3, h4, h]
  · intro m h1 h2 h3 h4 h5 h6
    simp [resolveExt_server, mimeToExt, h1, h2, h3, h4, h5, h6]

/-- Claim C1, witness: on audio/mp4;codecs=avc the server resolver keeps the
mp4 label, via the classification conjunct of the amended theorem. -/
theorem c1_format_resolver_witness :
    (jsIncludes (baseMime "audio/mp4;codecs=avc") "mp4" = true ∨
      jsIncludes (baseMime "audio/mp4;codecs=avc") "m4a" = true) ∧
    resolveExt_server "audio/mp4;codecs=avc" = "mp4" :=
  ⟨Or.inl (by decide), c1_format_resolver.2.1 "audio/mp4;codecs=avc" (Or.inl (by decide))⟩

/-- Claim C10, counterexample: on audio/webm;codecs=mp4 the two variants
derive different synthetic filenames (audio.webm versus audio.mp4). -/
theorem c10_filenames_differ :
    whisperFilename_server "audio/webm;codecs=mp4" ≠
      whisperFilename_part000 "audio/webm;codecs=mp4" := by decide

/-- reduction of a constructed string back to its character data. -/
lemma data_mk (l : List Char) : (String.mk l).data = l := rfl

/-- trimming before mimeToExt does not change the label: all the table's
needles are nonempty and whitespace-free. -/
lemma mimeToExt_mk_trim (l : List Char) :
    mimeToExt ⟨jsTrimList l⟩ = mimeToExt ⟨l⟩ := by
  unfold mimeToExt jsIncludes
  rw [data_mk, data_mk,
    listContains_trim l ("mp4".data) (by decide) (by decide),
    listContains_trim l ("m4a".data) (by decide) (by decide),
    listContains_trim l ("ogg".data) (by decide) (by decide),
    listContains_trim l ("wav".data) (by decide) (by decide),
    listContains_trim l ("mpeg".data) (by decide) (by decide),
    listContains_trim l ("mp3".data) (by decide) (by decide)]

/-- Claim C10 (amended): the two variants derive the same synthetic upload
filename for every MIME string without a semicolon (in particular for every
parameter-free MIME type); they differ only when the part at or after the
first semicolon introduces a format keyword. -/
theorem c10_filename_agreement (m : String) (h : ';' ∉ m.data) :
    whisperFilename_server m = whisperFilename_part000 m := by
  have hsplit : splitSemiHead m.data = m.data := by
    unfold splitSemiHead
    refine takeWhile_all fun c hc => ?_
    have hne : c ≠ ';' := fun hEq => h (hEq ▸ hc)
    simpa using hne
  unfold whisperFilename_server whisperFilename_part000 resolveExt_server resolveExt_part000
  have hbm : baseMime m = ⟨jsTrimList m.data⟩ := by
    unfold baseMime
    rw [hsplit]
  rw [hbm, show m = String.mk m.data from rfl, data_mk, mimeToExt_mk_trim]

/-- Claim C10, witness: both variants name a parameter-free ogg upload
audio.ogg. -/
theorem c10_filename_agreement_witness :
    (';' ∉ ("audio/ogg" : String).data) ∧
      whisperFilename_server "audio/ogg" = whisperFilename_part000 "audio/ogg" :=
  ⟨by decide, c10_filename_agreement "audio/ogg" (by decide)⟩

/- ── claim theorems: the /upload pipeline (C2-C9) ────────────────────── -/

/-- Claim C2: on the success path the response carries exactly the caller's
deal id and the two Drive ids returned by the archive client (text id and
audio id, success), and the notifier is called exactly once, with a body
that contains the verbatim transcript and both derived Drive view URLs. -/
theorem c2_upload_success_response_and_note
    (c : Clients) (cfg : Config) (d ap mt now1 now2 t aid tid : String) (fs0 : List String)
    (h1 : c.transcribeAudio ap mt = .ok t)
    (h2 : c.convertToMp3 ap (ap ++ ".mp3") = .ok ())
    (h3 : c.uploadToDrive (ap ++ ".mp3") (audioName d now1) "audio/mpeg" cfg.audioFolder = .ok aid)
    (h4 : c.uploadToDrive (textPathOf d now2) (textName d now2) "text/plain" cfg.textFolder = .ok tid)
    (h5 : c.sendAmoCrmNote d (noteTextOf t aid tid) = .ok ())
    (hap : ap ∈ fs0)
    (hta : textPathOf d now2 ≠ ap)
    (htm : textPathOf d now2 ≠ ap ++ ".mp3") :
    (runPipeline c cfg d ap mt now1 now2 fs0).response = HttpResponse.ok d tid aid ∧
    (runPipeline c cfg d ap mt now1 now2 fs0).events.filter isNoteCall =
      [Event.noteCall d (noteTextOf t aid tid)] ∧
    jsIncludes (noteTextOf t aid tid) t = true ∧
    jsIncludes (noteTextOf t aid tid) (driveUrl aid) = true ∧
    jsIncludes (noteTextOf t aid tid) (driveUrl tid) = true := by
  rw [runPipeline_success c cfg d ap mt now1 now2 t aid tid fs0 h1 h2 h3 h4 h5 hap hta htm]
  refine ⟨rfl, rfl, ?_, ?_, ?_⟩
  · show listContains (noteTextOf t aid tid).data t.data = true
    exact @listContains_of_eq (noteTextOf t aid tid).data
      ("📝 Транскрипция встречи:\n\n" : String).data t.data
      ("\n\n🎵 Аудио: " ++ driveUrl aid ++ "\n📄 Текст: " ++ driveUrl tid : String).data
      (by simp [noteTextOf, data_append, List.append_assoc])
  · show listContains (noteTextOf t aid tid).data (driveUrl aid).data = true
    exact @listContains_of_eq (noteTextOf t aid tid).data
      ("📝 Транскрипция встречи:\n\n" ++ t ++ "\n\n🎵 Аудио: " : String).data
      (driveUrl aid).data ("\n📄 Текст: " ++ driveUrl tid : String).data
      (by simp [noteTextOf, data_append, List.append_assoc])
  · show listContains (noteTextOf t aid tid).data (driveUrl tid).data = true
    exact @listContains_of_eq (noteTextOf t aid tid).data
      ("📝 Транскрипция встречи:\n\n" ++ t ++ "\n\n🎵 Аудио: " ++ driveUrl aid ++
        "\n📄 Текст: " : String).data
      (driveUrl tid).data []
      (by simp [noteTextOf, data_append, List.append_assoc])

/-- Claim C2, witness: a concrete mocked success run answers ok 42 TID AID. -/
theorem c2_upload_success_response_and_note_witness :
    mockOk.transcribeAudio "/tmp/uploads/abc" "audio/webm" = .ok "hello world" ∧
    (runPipeline mockOk mockCfg "42" "/tmp/uploads/abc" "audio/webm" "111" "222"
      fsStart).response = HttpResponse.ok "42" "TID" "AID" :=
  ⟨rfl,
    (c2_upload_success_response_and_note mockOk mockCfg "42" "/tmp/uploads/abc" "audio/webm"
      "111" "222" "hello world" "AID" "TID" fsStart rfl rfl rfl rfl rfl (by decide)
      (by decide) (by decide)).1⟩

/-- Claim C3, counterexample: when the notifier rejects, the transcript text
file the handler wrote is still in scratch storage when the 500 response is
sent — the claim that every temp file is deleted on every failure path is
false. -/
theorem c3_transcript_leak_on_notifier_failure :
    (handleUpload mockNoteFail mockCfg reqOk "111" "222" fsStart).response =
      HttpResponse.serverError "boom" ∧
    textPathOf "42" "222" ∈ (handleUpload mockNoteFail mockCfg reqOk "111" "222" fsStart).fs := by
  constructor
  · decide
  · decide

/-- Claim C3 (amended): before every response the uploaded audio file and the
mp3 copy are removed from scratch storage, on the success path and on every
failure path; the transcript text file is removed on the success path, but
the catch block never deletes it, so it survives failures that occur after
it is written. -/
theorem c3_temp_file_cleanup
    (c : Clients) (cfg : Config) (d ap mt now1 now2 : String) (fs0 : List String)
    (hnd : fs0.Nodup) :
    (ap ∉ (runPipeline c cfg d ap mt now1 now2 fs0).fs ∧
      (ap ++ ".mp3") ∉ (runPipeline c cfg d ap mt now1 now2 fs0).fs) ∧
    (∀ t aid tid : String,
      c.transcribeAudio ap mt = .ok t →
      c.convertToMp3 ap (ap ++ ".mp3") = .ok () →
      c.uploadToDrive (ap ++ ".mp3") (audioName d now1) "audio/mpeg" cfg.audioFolder = .ok aid →
      c.uploadToDrive (textPathOf d now2) (textName d now2) "text/plain" cfg.textFolder = .ok tid →
      c.sendAmoCrmNote d (noteTextOf t aid tid) = .ok () →
      ap ∈ fs0 → textPathOf d now2 ≠ ap → textPathOf d now2 ≠ ap ++ ".mp3" →
      textPathOf d now2 ∉ (runPipeline c cfg d ap mt now1 now2 fs0).fs) := by
  refine ⟨runPipeline_cleanup c cfg d ap mt now1 now2 fs0 hnd, ?_⟩
  intro t aid tid h1 h2 h3 h4 h5 hap hta htm
  rw [runPipeline_success c cfg d ap mt now1 now2 t aid tid fs0 h1 h2 h3 h4 h5 hap hta htm]
  exact not_mem_erase_self
    (((fsWrite_nodup _ (fsWrite_nodup _ hnd)).erase ap).erase (ap ++ ".mp3")) _

/-- Claim C3, witness: in the concrete mocked success run neither the audio
temp file nor its mp3 copy survives. -/
theorem c3_temp_file_cleanup_witness :
    fsStart.Nodup ∧
    "/tmp/uploads/abc" ∉
      (runPipeline mockOk mockCfg "42" "/tmp/uploads/abc" "audio/webm" "111" "222" fsStart).fs :=
  ⟨by decide,
    (c3_temp_file_cleanup mockOk mockCfg "42" "/tmp/uploads/abc" "audio/webm" "111" "222"
      fsStart (by decide)).1.1⟩

/-- Claim C4: a request missing the dealId field (or carrying an empty one)
or missing the audio file gets a 400 with the fixed error body, the scratch
filesystem is untouched and no client call of any stage is made. -/
theorem c4_missing_input_short_circuit
    (c : Clients) (cfg : Config) (req : UploadRequest) (now1 now2 : String)
    (fs0 : List String)
    (h : req.dealId = none ∨ req.dealId = some "" ∨ req.file = none) :
    handleUpload c cfg req now1 now2 fs0 =
      ⟨HttpResponse.badRequest "dealId and audio are required", fs0, []⟩ := by
  obtain ⟨did, file⟩ := req
  rcases h with h | h | h
  · simp only at h; subst h; cases file <;> rfl
  · simp only at h; subst h; cases file <;> rfl
  · simp only at h; subst h; cases did <;> rfl

/-- Claim C4, witness: a concrete request without a dealId field gets the
400 and an empty trace. -/
theorem c4_missing_input_short_circuit_witness :
    ((⟨none, some ⟨"/tmp/uploads/abc", some "audio/webm"⟩⟩ : UploadRequest).dealId = none ∨
      (⟨none, some ⟨"/tmp/uploads/abc", some "audio/webm"⟩⟩ : UploadRequest).dealId = some "" ∨
      (⟨none, some ⟨"/tmp/uploads/abc", some "audio/webm"⟩⟩ : UploadRequest).file = none) ∧
    handleUpload mockOk mockCfg ⟨none, some ⟨"/tmp/uploads/abc", some "audio/webm"⟩⟩
        "111" "222" fsStart =
      ⟨HttpResponse.badRequest "dealId and audio are required", fsStart, []⟩ :=
  ⟨Or.inl rfl,
    c4_missing_input_short_circuit mockOk mockCfg _ "111" "222" fsStart (Or.inl rfl)⟩

/-- Claim C5: whichever stage throws first, no later stage is called, nothing
is retried (each earlier call appears exactly once in the trace, which stops
at the failing call apart from the cleanup unlinks), and the single response
is a 500 whose error equals the thrown message. -/
theorem c5_stage_failure_aborts
    (c : Clients) (cfg : Config) (d ap mt now1 now2 : String) (fs0 : List String)
    (hap : ap ∈ fs0) (hm : ap ++ ".mp3" ∉ fs0) :
    (∀ e, c.transcribeAudio ap mt = .error e →
      (runPipeline c cfg d ap mt now1 now2 fs0).response = HttpResponse.serverError e ∧
      (runPipeline c cfg d ap mt now1 now2 fs0).events =
        [Event.transcribeCall ap mt, Event.unlink ap])
  ∧ (∀ t e, c.transcribeAudio ap mt = .ok t →
      c.convertToMp3 ap (ap ++ ".mp3") = .error e →
      (runPipeline c cfg d ap mt now1 now2 fs0).response = HttpResponse.serverError e ∧
      (runPipeline c cfg d ap mt now1 now2 fs0).events =
        [Event.transcribeCall ap mt, Event.convertCall ap (ap ++ ".mp3"), Event.unlink ap])
  ∧ (∀ t e, c.transcribeAudio ap mt = .ok t →
      c.convertToMp3 ap (ap ++ ".mp3") = .ok () →
      c.uploadToDrive (ap ++ ".mp3") (audioName d now1) "audio/mpeg" cfg.audioFolder =
        .error e →
      (runPipeline c cfg d ap mt now1 now2 fs0).response = HttpResponse.serverError e ∧
      (runPipeline c cfg d ap mt now1 now2 fs0).events =
        [Event.transcribeCall ap mt, Event.convertCall ap (ap ++ ".mp3"),
         Event.uploadCall (ap ++ ".mp3") (audioName d now1) "audio/mpeg" cfg.audioFolder,
         Event.unlink ap, Event.unlink (ap ++ ".mp3")])
  ∧ (∀ t aid e, c.transcribeAudio ap mt = .ok t →
      c.convertToMp3 ap (ap ++ ".mp3") = .ok () →
      c.uploadToDrive (ap ++ ".mp3") (audioName d now1) "audio/mpeg" cfg.audioFolder =
        .ok aid →
      c.uploadToDrive (textPathOf d now2) (textName d now2) "text/plain" cfg.textFolder =
        .error e →
      (runPipeline c cfg d ap mt now1 now2 fs0).response = HttpResponse.serverError e ∧
      (runPipeline c cfg d ap mt now1 now2 fs0).events =
        [Event.transcribeCall ap mt, Event.convertCall ap (ap ++ ".mp3"),
         Event.uploadCall (ap ++ ".mp3") (audioName d now1) "audio/mpeg" cfg.audioFolder,
         Event.writeFile (textPathOf d now2),
         Event.uploadCall (textPathOf d now2) (textName d now2) "text/plain" cfg.textFolder,
         Event.unlink ap, Event.unlink (ap ++ ".mp3")])
  ∧ (∀ t aid tid e, c.transcribeAudio ap mt = .ok t →
      c.convertToMp3 ap (ap ++ ".mp3") = .ok () →
      c.uploadToDrive (ap ++ ".mp3") (audioName d now1) "audio/mpeg" cfg.audioFolder =
        .ok aid →
      c.uploadToDrive (textPathOf d now2) (textName d now2) "text/plain" cfg.textFolder =
        .ok tid →
      c.sendAmoCrmNote d (noteTextOf t aid tid) = .error e →
      (runPipeline c cfg d ap mt now1 now2 fs0).response = HttpResponse.serverError e ∧
      (runPipeline c cfg d ap mt now1 now2 fs0).events =
        [Event.transcribeCall ap mt, Event.convertCall ap (ap ++ ".mp3"),
         Event.uploadCall (ap ++ ".mp3") (audioName d now1) "audio/mpeg" cfg.audioFolder,
         Event.writeFile (textPathOf d now2),
         Event.uploadCall (textPathOf d now2) (textName d now2) "text/plain" cfg.textFolder,
         Event.noteCall d (noteTextOf t aid tid),
         Event.unlink ap, Event.unlink (ap ++ ".mp3")]) := by
  refine ⟨?_, ?_, ?_, ?_, ?_⟩
  · intro e h
    rw [runPipeline_fail1 c cfg d ap mt now1 now2 e fs0 h hap hm]
    exact ⟨rfl, rfl⟩
  · intro t e h1 h
    rw [runPipeline_fail2 c cfg d ap mt now1 now2 t e fs0 h1 h hap hm]
    exact ⟨rfl, rfl⟩
  · intro t e h1 h2 h
    rw [runPipeline_fail3 c cfg d ap mt now1 now2 t e fs0 h1 h2 h hap]
    exact ⟨rfl, rfl⟩
  · intro t aid e h1 h2 h3 h
    rw [runPipeline_fail4 c cfg d ap mt now1 now2 t aid e fs0 h1 h2 h3 h hap]
    exact ⟨rfl, rfl⟩
  · intro t aid tid e h1 h2 h3 h4 h
    rw [runPipeline_fail5 c cfg d ap mt now1 now2 t aid tid e fs0 h1 h2 h3 h4 h hap]
    exact ⟨rfl, rfl⟩

/-- Claim C5, witness: a concrete run whose mocked transcription rejects
answers 500 with the thrown message after a single client call. -/
theorem c5_stage_failure_aborts_witness :
    mockTranscribeFail.transcribeAudio "/tmp/uploads/abc" "audio/webm" =
      .error "whisper down" ∧
    (runPipeline mockTranscribeFail mockCfg "42" "/tmp/uploads/abc" "audio/webm" "111" "222"
      fsStart).response = HttpResponse.serverError "whisper down" :=
  ⟨rfl,
    ((c5_stage_failure_aborts mockTranscribeFail mockCfg "42" "/tmp/uploads/abc" "audio/webm"
      "111" "222" fsStart (by decide) (by decide)).1 "whisper down" rfl).1⟩

/-- Claim C6: on a successful run the trace is exactly transcription, then
transcoding, then the audio archive upload, then the transcript write and
archive upload, then the CRM note, then the three cleanup unlinks — in that
order and each exactly once; the model is sequential by construction, every
stage being a single awaited call. -/
theorem c6_stage_order
    (c : Clients) (cfg : Config) (d ap mt now1 now2 t aid tid : String) (fs0 : List String)
    (h1 : c.transcribeAudio ap mt = .ok t)
    (h2 : c.convertToMp3 ap (ap ++ ".mp3") = .ok ())
    (h3 : c.uploadToDrive (ap ++ ".mp3") (audioName d now1) "audio/mpeg" cfg.audioFolder = .ok aid)
    (h4 : c.uploadToDrive (textPathOf d now2) (textName d now2) "text/plain" cfg.textFolder = .ok tid)
    (h5 : c.sendAmoCrmNote d (noteTextOf t aid tid) = .ok ())
    (hap : ap ∈ fs0)
    (hta : textPathOf d now2 ≠ ap)
    (htm : textPathOf d now2 ≠ ap ++ ".mp3") :
    (runPipeline c cfg d ap mt now1 now2 fs0).events =
      [Event.transcribeCall ap mt,
       Event.convertCall ap (ap ++ ".mp3"),
       Event.uploadCall (ap ++ ".mp3") (audioName d now1) "audio/mpeg" cfg.audioFolder,
       Event.writeFile (textPathOf d now2),
       Event.uploadCall (textPathOf d now2) (textName d now2) "text/plain" cfg.textFolder,
       Event.noteCall d (noteTextOf t aid tid),
       Event.unlink ap, Event.unlink (ap ++ ".mp3"), Event.unlink (textPathOf d now2)] ∧
    (runPipeline c cfg d ap mt now1 now2 fs0).response = HttpResponse.ok d tid aid := by
  rw [runPipeline_success c cfg d ap mt now1 now2 t aid tid fs0 h1 h2 h3 h4 h5 hap hta htm]
  exact ⟨rfl, rfl⟩

/-- Claim C6, witness: the concrete mocked success run produces that trace. -/
theorem c6_stage_order_witness :
    mockOk.convertToMp3 "/tmp/uploads/abc" ("/tmp/uploads/abc" ++ ".mp3") = .ok () ∧
    (runPipeline mockOk mockCfg "42" "/tmp/uploads/abc" "audio/webm" "111" "222"
        fsStart).events.head? = some (Event.transcribeCall "/tmp/uploads/abc" "audio/webm") :=
  ⟨rfl, by
    rw [(c6_stage_order mockOk mockCfg "42" "/tmp/uploads/abc" "audio/webm" "111" "222"
      "hello world" "AID" "TID" fsStart rfl rfl rfl rfl rfl (by decide) (by decide)
      (by decide)).1]
    rfl⟩

/-- Claim C7, counterexample: a successful concrete run in which the
transcription call is the first event of the trace and the transcoding call
only the second — so the transcoding step does not complete before the
transcription step begins, contradicting the claimed order. -/
theorem c7_transcoding_not_first :
    (handleUpload mockOk mockCfg reqOk "111" "222" fsStart).response =
      HttpResponse.ok "42" "TID" "AID" ∧
    (handleUpload mockOk mockCfg reqOk "111" "222" fsStart).events.take 2 =
      [Event.transcribeCall "/tmp/uploads/abc" "audio/webm",
       Event.convertCall "/tmp/uploads/abc" "/tmp/uploads/abc.mp3"] ∧
    ¬ (handleUpload mockOk mockCfg reqOk "111" "222" fsStart).events.take 2 =
      [Event.convertCall "/tmp/uploads/abc" "/tmp/uploads/abc.mp3",
       Event.transcribeCall "/tmp/uploads/abc" "audio/webm"] := by
  refine ⟨by decide, by decide, by decide⟩

/-- Claim C7 (amended): in every successful run the transcription call
completes before the transcoding call begins: the first two trace events
are the transcription call followed by the transcoding call. -/
theorem c7_transcription_precedes_transcoding
    (c : Clients) (cfg : Config) (d ap mt now1 now2 t aid tid : String) (fs0 : List String)
    (h1 : c.transcribeAudio ap mt = .ok t)
    (h2 : c.convertToMp3 ap (ap ++ ".mp3") = .ok ())
    (h3 : c.uploadToDrive (ap ++ ".mp3") (audioName d now1) "audio/mpeg" cfg.audioFolder = .ok aid)
    (h4 : c.uploadToDrive (textPathOf d now2) (textName d now2) "text/plain" cfg.textFolder = .ok tid)
    (h5 : c.sendAmoCrmNote d (noteTextOf t aid tid) = .ok ())
    (hap : ap ∈ fs0)
    (hta : textPathOf d now2 ≠ ap)
    (htm : textPathOf d now2 ≠ ap ++ ".mp3") :
    (runPipeline c cfg d ap mt now1 now2 fs0).response = HttpResponse.ok d tid aid ∧
    (runPipeline c cfg d ap mt now1 now2 fs0).events.take 2 =
      [Event.transcribeCall ap mt, Event.convertCall ap (ap ++ ".mp3")] := by
  rw [runPipeline_success c cfg d ap mt now1 now2 t aid tid fs0 h1 h2 h3 h4 h5 hap hta htm]
  exact ⟨rfl, rfl⟩

/-- Claim C7, witness: the amended order holds on the concrete mocked run. -/
theorem c7_transcription_precedes_transcoding_witness :
    mockOk.transcribeAudio "/tmp/uploads/abc" "audio/webm" = .ok "hello world" ∧
    (runPipeline mockOk mockCfg "42" "/tmp/uploads/abc" "audio/webm" "111" "222"
        fsStart).events.take 2 =
      [Event.transcribeCall "/tmp/uploads/abc" "audio/webm",
       Event.convertCall "/tmp/uploads/abc" ("/tmp/uploads/abc" ++ ".mp3")] :=
  ⟨rfl,
    (c7_transcription_precedes_transcoding mockOk mockCfg "42" "/tmp/uploads/abc"
      "audio/webm" "111" "222" "hello world" "AID" "TID" fsStart rfl rfl rfl rfl rfl
      (by decide) (by decide) (by decide)).2⟩

/-- Claim C9: a request that carries the multer-saved audio file but no
dealId field is answered 400 while the scratch filesystem is left exactly as
it was, so the uploaded temp file is still on disk after the response. -/
theorem c9_temp_file_survives_400
    (c : Clients) (cfg : Config) (f : UploadedFile) (now1 now2 : String)
    (fs0 : List String) (hf : f.path ∈ fs0) :
    handleUpload c cfg ⟨none, some f⟩ now1 now2 fs0 =
      ⟨HttpResponse.badRequest "dealId and audio are required", fs0, []⟩ ∧
    f.path ∈ (handleUpload c cfg ⟨none, some f⟩ now1 now2 fs0).fs := by
  exact ⟨rfl, hf⟩

/-- Claim C9, witness: the concrete fileless-dealId request leaves the
multer file in scratch storage. -/
theorem c9_temp_file_survives_400_witness :
    "/tmp/uploads/abc" ∈ fsStart ∧
    "/tmp/uploads/abc" ∈
      (handleUpload mockOk mockCfg
        ⟨none, some ⟨"/tmp/uploads/abc", some "audio/webm"⟩⟩ "111" "222" fsStart).fs :=
  ⟨by decide,
    (c9_temp_file_survives_400 mockOk mockCfg ⟨"/tmp/uploads/abc", some "audio/webm"⟩
      "111" "222" fsStart (by decide)).2⟩

/- ── claim theorems: transcription error wrapping (C8) ───────────────── -/

/-- a mocked transcription endpoint that answers non-2xx: the transport error
carries the JSON-serialized response body and axios's generic message. -/
def apiFail : String → String → String → Except ApiErr WhisperOk :=
  fun _ _ _ => .error ⟨some "\"invalid file format\"", "Request failed with status code 400"⟩

/-- Claim C8, counterexample: part_000's transcribeAudio (also cited by the
claim) has no catch, so the error it propagates is the transport message and
the response body is not contained in it — the body is not captured. -/
theorem c8_part000_drops_response_body :
    transcribeAudio_part000 apiFail "/tmp/uploads/abc" "audio/webm" =
      .error "Request failed with status code 400" ∧
    jsIncludes "Request failed with status code 400" "\"invalid file format\"" = false := by
  constructor
  · rfl
  · decide

/-- Claim C8 (amended): server.js's transcribeAudio captures the verbatim
response body of a failed transcription call and raises an error wrapping it
(prefix plus body), and the pipeline propagates that single error as the 500
response without calling transcription again or running any later stage;
part_000's variant lacks the wrapping. -/
theorem c8_whisper_error_wrapping
    (api : String → String → String → Except ApiErr WhisperOk)
    (fp mt b : String) (err : ApiErr)
    (hcall : api fp ("audio." ++ resolveExt_server mt) (baseMime mt) = .error err)
    (hbody : err.responseData = some b) :
    transcribeAudio_server api fp mt = .error ("Whisper error: " ++ b) ∧
    jsIncludes ("Whisper error: " ++ b) b = true ∧
    (∀ (cc : Clients) (cfg : Config) (d now1 now2 : String) (fs0 : List String),
      cc.transcribeAudio = transcribeAudio_server api →
      fp ∈ fs0 → fp ++ ".mp3" ∉ fs0 →
      runPipeline cc cfg d fp mt now1 now2 fs0 =
        ⟨HttpResponse.serverError ("Whisper error: " ++ b), fs0.erase fp,
          [Event.transcribeCall fp mt, Event.unlink fp]⟩) := by
  have hcall' : api fp ("audio." ++ mimeToExt (baseMime mt)) (baseMime mt) = .error err :=
    hcall
  have hmain : transcribeAudio_server api fp mt = .error ("Whisper error: " ++ b) := by
    simp only [transcribeAudio_server, hcall', hbody]
  refine ⟨hmain, ?_, ?_⟩
  · show listContains ("Whisper error: " ++ b).data b.data = true
    exact @listContains_of_eq ("Whisper error: " ++ b).data
      ("Whisper error: " : String).data b.data []
      (by simp [data_append])
  · intro cc cfg d now1 now2 fs0 htr hfp hm
    have hcc : cc.transcribeAudio fp mt = .error ("Whisper error: " ++ b) := by
      rw [htr]; exact hmain
    exact runPipeline_fail1 cc cfg d fp mt now1 now2 ("Whisper error: " ++ b) fs0 hcc hfp hm

/-- Claim C8, witness: on the concrete failing endpoint the wrapped error is
the fixed prefix followed by the verbatim serialized body. -/
theorem c8_whisper_error_wrapping_witness :
    apiFail "/tmp/uploads/abc" ("audio." ++ resolveExt_server "audio/webm")
      (baseMime "audio/webm") =
        .error ⟨some "\"invalid file format\"", "Request failed with status code 400"⟩ ∧
    transcribeAudio_server apiFail "/tmp/uploads/abc" "audio/webm" =
      .error ("Whisper error: " ++ "\"invalid file format\"") :=
  ⟨rfl,
    (c8_whisper_error_wrapping apiFail "/tmp/uploads/abc" "audio/webm"
      "\"invalid file format\""
      ⟨some "\"invalid file format\"", "Request failed with status code 400"⟩
      rfl rfl).1⟩
